import Mathlib

/-!
Verification of the polygon-problem-generator build pipeline.

The Python sources are shallowly embedded:
* `src/polygon_api.py` (signing and response classification),
* `src/polygon_methods.py` (method registry and problem lookup/creation),
* `src/config.py` (document validation),
* `src/build.py` (stage runner and build pipeline).

External collaborators (the `requests` HTTP transport, the filesystem, the
YAML parser, `hashlib`) are modelled as explicit inputs: an HTTP exchange
is an oracle argument, parsed YAML documents are values of `PyVal`, and the
network trace of a run is recorded as a list of issued calls.
-/

/-! ## UTF-8 encoding (models Python `str.encode("utf-8")`) -/

/-- UTF-8 encoding of a single Unicode code point, as a list of byte values. -/
def utf8_char (c : Char) : List Nat :=
  let n := c.toNat
  if n < 0x80 then [n]
  else if n < 0x800 then [0xC0 + n / 64, 0x80 + n % 64]
  else if n < 0x10000 then [0xE0 + n / 4096, 0x80 + n / 64 % 64, 0x80 + n % 64]
  else [0xF0 + n / 262144, 0x80 + n / 4096 % 64, 0x80 + n / 64 % 64, 0x80 + n % 64]

/-- UTF-8 encoding of a string, as the list of its byte values. -/
def utf8_bytes (s : String) : List Nat :=
  s.data.flatMap utf8_char

/-! ## SHA-512 (models Python `hashlib.sha512`, FIPS 180-4)

64-bit machine words are modelled as natural numbers reduced modulo `2 ^ 64`.
-/

/-- Truncate to a 64-bit word. -/
def w64 (n : Nat) : Nat := n % (2 ^ 64)

/-- Right rotation of a 64-bit word by `k` bits. -/
def rotr (k n : Nat) : Nat := w64 (n / 2 ^ k + n % 2 ^ k * 2 ^ (64 - k))

/-- Logical right shift of a 64-bit word by `k` bits. -/
def shr64 (k n : Nat) : Nat := n / 2 ^ k

/-- Bitwise complement within 64 bits. -/
def not64 (n : Nat) : Nat := n ^^^ (2 ^ 64 - 1)

def sha512_ch (e f g : Nat) : Nat := (e &&& f) ^^^ (not64 e &&& g)

def sha512_maj (a b c : Nat) : Nat := (a &&& b) ^^^ (a &&& c) ^^^ (b &&& c)

def sha512_S0 (a : Nat) : Nat := rotr 28 a ^^^ rotr 34 a ^^^ rotr 39 a

def sha512_S1 (e : Nat) : Nat := rotr 14 e ^^^ rotr 18 e ^^^ rotr 41 e

def sha512_s0 (x : Nat) : Nat := rotr 1 x ^^^ rotr 8 x ^^^ shr64 7 x

def sha512_s1 (x : Nat) : Nat := rotr 19 x ^^^ rotr 61 x ^^^ shr64 6 x

/-- The 80 SHA-512 round constants. -/
def sha512_K : List Nat :=
  [
   4794697086780616226, 8158064640168781261, 13096744586834688815,
   16840607885511220156, 4131703408338449720, 6480981068601479193,
   10538285296894168987, 12329834152419229976, 15566598209576043074,
   1334009975649890238, 2608012711638119052, 6128411473006802146,
   8268148722764581231, 9286055187155687089, 11230858885718282805,
   13951009754708518548, 16472876342353939154, 17275323862435702243,
   1135362057144423861, 2597628984639134821, 3308224258029322869,
   5365058923640841347, 6679025012923562964, 8573033837759648693,
   10970295158949994411, 12119686244451234320, 12683024718118986047,
   13788192230050041572, 14330467153632333762, 15395433587784984357,
   489312712824947311, 1452737877330783856, 2861767655752347644,
   3322285676063803686, 5560940570517711597, 5996557281743188959,
   7280758554555802590, 8532644243296465576, 9350256976987008742,
   10552545826968843579, 11727347734174303076, 12113106623233404929,
   14000437183269869457, 14369950271660146224, 15101387698204529176,
   15463397548674623760, 17586052441742319658, 1182934255886127544,
   1847814050463011016, 2177327727835720531, 2830643537854262169,
   3796741975233480872, 4115178125766777443, 5681478168544905931,
   6601373596472566643, 7507060721942968483, 8399075790359081724,
   8693463985226723168, 9568029438360202098, 10144078919501101548,
   10430055236837252648, 11840083180663258601, 13761210420658862357,
   14299343276471374635, 14566680578165727644, 15097957966210449927,
   16922976911328602910, 17689382322260857208, 500013540394364858,
   748580250866718886, 1242879168328830382, 1977374033974150939,
   2944078676154940804, 3659926193048069267, 4368137639120453308,
   4836135668995329356, 5532061633213252278, 6448918945643986474,
   6902733635092675308, 7801388544844847127]

/-- The SHA-512 initial hash value. -/
def sha512_H0 : List Nat :=
  [
   7640891576956012808, 13503953896175478587, 4354685564936845355,
   11912009170470909681, 5840696475078001361, 11170449401992604703,
   2270897969802886507, 6620516959819538809]

/-- Big-endian interpretation of a byte list as one number. -/
def be_word (bs : List Nat) : Nat := bs.foldl (fun a b => a * 256 + b) 0

/-- `n` as `k` big-endian bytes. -/
def be_bytes (k n : Nat) : List Nat :=
  (List.range k).map fun i => n / 2 ^ (8 * (k - 1 - i)) % 256

/-- SHA-512 message padding: append `0x80`, zeros, and the 128-bit bit length,
reaching a multiple of 128 bytes. -/
def sha512_pad (msg : List Nat) : List Nat :=
  msg ++ [0x80] ++ List.replicate ((128 - (msg.length + 17) % 128) % 128) 0
    ++ be_bytes 16 (8 * msg.length)

/-- Split a byte list into 128-byte blocks. -/
def chunks128 : List Nat → List (List Nat)
  | [] => []
  | a :: t => ((a :: t).take 128) :: chunks128 (t.drop 127)
termination_by l => l.length
decreasing_by simp only [List.length_drop, List.length_cons]; omega

/-- The 16 initial 64-bit message-schedule words of a 128-byte block. -/
def block_words (block : List Nat) : List Nat :=
  (List.range 16).map fun i => be_word ((block.drop (8 * i)).take 8)

/-- Extend the 16 block words to the 80-entry message schedule. -/
def sha512_schedule (w16 : List Nat) : List Nat :=
  (List.range 64).foldl
    (fun ws _ =>
      let n := ws.length
      ws ++ [w64 (sha512_s1 (ws.getD (n - 2) 0) + ws.getD (n - 7) 0 +
                  sha512_s0 (ws.getD (n - 15) 0) + ws.getD (n - 16) 0)])
    w16

/-- One SHA-512 round on the eight working variables. -/
def sha512_round (s : List Nat) (kw : Nat × Nat) : List Nat :=
  let a := s.getD 0 0
  let b := s.getD 1 0
  let c := s.getD 2 0
  let d := s.getD 3 0
  let e := s.getD 4 0
  let f := s.getD 5 0
  let g := s.getD 6 0
  let hh := s.getD 7 0
  let t1 := w64 (hh + sha512_S1 e + sha512_ch e f g + kw.1 + kw.2)
  let t2 := w64 (sha512_S0 a + sha512_maj a b c)
  [w64 (t1 + t2), a, b, c, w64 (d + t1), e, f, g]

/-- Compress one 128-byte block into the running hash state. -/
def sha512_compress (h : List Nat) (block : List Nat) : List Nat :=
  let w := sha512_schedule (block_words block)
  let fin := (sha512_K.zip w).foldl sha512_round h
  List.zipWith (fun x y => w64 (x + y)) h fin

/-- SHA-512 digest of a byte list, as a list of 64 byte values. -/
def sha512 (msg : List Nat) : List Nat :=
  ((chunks128 (sha512_pad msg)).foldl sha512_compress sha512_H0).flatMap (be_bytes 8)

/-- A lowercase hexadecimal digit character. -/
def hex_digit (n : Nat) : Char := Nat.digitChar (n % 16)

/-- Lowercase hexadecimal rendering of a byte list
(models Python `hashlib`s `.hexdigest()`). -/
def hex_of_bytes (bs : List Nat) : String :=
  String.mk (bs.flatMap fun b => [hex_digit (b / 16), hex_digit b])

/-- Lowercase hexadecimal SHA-512 digest of a byte list. -/
def sha512_hex (msg : List Nat) : String := hex_of_bytes (sha512 msg)

/-! ## Request signing (`polygon_api_call`, src/src/polygon_api.py lines 33-49)

Parameters are the string pairs of a Python dict (`str(k), str(v)` already
applied); the nonce (`rand`) and the merged `time` value are held as explicit
arguments, as the claims fix them.
-/

/-- Python dict assignment `p[k] = v` on an association list: replace the value
at an existing key, otherwise append the new pair at the end. -/
def set_item (l : List (String × String)) (k v : String) : List (String × String) :=
  if l.any (fun kv => kv.1 == k) then l.map (fun kv => if kv.1 == k then (k, v) else kv)
  else l ++ [(k, v)]

/-- `p["apiKey"] = api_key; p["time"] = time_str` (polygon_api.py lines 34-35). -/
def merge_fixed (params : List (String × String)) (api_key time_str : String) :
    List (String × String) :=
  set_item (set_item params "apiKey" api_key) "time" time_str

/-- Python tuple comparison on `(key, value)` string pairs: first by key, then
by value, lexicographic over raw code points. -/
def pair_le (a b : String × String) : Bool :=
  decide (a.1 < b.1 ∨ (a.1 = b.1 ∧ a.2 ≤ b.2))

/-- `items = sorted((str(k), str(v)) for k, v in p.items())`
(polygon_api.py line 38), after merging the fixed fields. -/
def canonical_items (params : List (String × String)) (api_key time_str : String) :
    List (String × String) :=
  (merge_fixed params api_key time_str).mergeSort pair_le

/-- `param_str = "&".join(f"{k}={v}" for k, v in items)` — raw, unescaped
values (polygon_api.py line 43). -/
def param_str (items : List (String × String)) : String :=
  String.intercalate "&" (items.map fun kv => kv.1 ++ "=" ++ kv.2)

/-- `to_sign = f"{rand}/{method_name}?{param_str}#{POLYGON_API_SECRET}"`
(polygon_api.py line 44). -/
def to_sign (rand method : String) (items : List (String × String)) (secret : String) : String :=
  rand ++ "/" ++ method ++ "?" ++ param_str items ++ "#" ++ secret

/-- `api_sig = rand + hashlib.sha512(to_sign.encode("utf-8")).hexdigest()`
(polygon_api.py line 45). -/
def api_sig (rand method : String) (items : List (String × String)) (secret : String) : String :=
  rand ++ sha512_hex (utf8_bytes (to_sign rand method items secret))

/-- The signing step of `polygon_api_call` with nonce and timestamp held fixed:
the canonical item list and the produced `apiSig`. -/
def polygon_sign (method : String) (params : List (String × String))
    (secret api_key rand time_str : String) : List (String × String) × String :=
  let items := canonical_items params api_key time_str
  (items, api_sig rand method items secret)

/-! ## JSON values and response classification
(`polygon_api_call`, src/src/polygon_api.py lines 51-67)

The HTTP exchange itself (`requests.post`) and the JSON parser (`r.json()`)
are external; a `Response` carries the pieces of the `requests` response the
code reads: the declared content type, the HTTP status code, the body text,
and the result of attempting to parse the body as JSON (`none` when the body
is not valid JSON, making `r.json()` raise).
-/

/-- Parsed JSON values. -/
inductive Json where
  | null : Json
  | bool (b : Bool) : Json
  | num (n : Int) : Json
  | str (s : String) : Json
  | arr (xs : List Json) : Json
  | obj (kvs : List (String × Json)) : Json

/-- Lookup in a JSON object association list (Python `dict.get`). -/
def jlookup (kvs : List (String × Json)) (k : String) : Option Json :=
  (kvs.find? fun kv => kv.1 == k).map (fun kv => kv.2)

mutual

/-- A rendering of a JSON value, modelling Python `str(j)` in the error path
for an envelope without a `comment` field (the exact text is Python repr
formatting; only that it carries the raw envelope matters). -/
def json_repr : Json → String
  | .null => "None"
  | .bool true => "True"
  | .bool false => "False"
  | .num n => toString n
  | .str s => s
  | .arr xs => "[" ++ String.intercalate ", " (json_repr_list xs) ++ "]"
  | .obj kvs =>
      "\x7b" ++ String.intercalate ", " (json_repr_pairs kvs) ++ "\x7d"

def json_repr_list : List Json → List String
  | [] => []
  | x :: t => json_repr x :: json_repr_list t

def json_repr_pairs : List (String × Json) → List String
  | [] => []
  | (k, v) :: t => (k ++ ": " ++ json_repr v) :: json_repr_pairs t

end

/-- The pieces of a `requests` HTTP response that `polygon_api_call` reads. -/
structure Response where
  content_type : String
  status_code : Nat
  text : String
  json_body : Option Json

/-- Python whitespace characters stripped by `str.lstrip()` (ASCII subset). -/
def py_space (c : Char) : Bool :=
  c == ' ' || c == '\t' || c == '\n' || c == '\r' || c == '\x0b' || c == '\x0c'

/-- Python `s.lstrip()`. -/
def py_lstrip (s : String) : String := String.mk (s.data.dropWhile py_space)

/-- Python `s.lower()` (basic-latin case folding). -/
def py_lower (s : String) : String := String.mk (s.data.map Char.toLower)

/-- Python `s.strip()`. -/
def py_strip (s : String) : String :=
  String.mk (((s.data.dropWhile py_space).reverse.dropWhile py_space).reverse)

/-- Whether the first list is an initial segment of the second. -/
def prefix_match : List Char → List Char → Bool
  | [], _ => true
  | _ :: _, [] => false
  | a :: t, b :: u => a == b && prefix_match t u

/-- List-level substring containment (`needle in hay` on strings). -/
def sub_list : List Char → List Char → Bool
  | needle, [] => needle.isEmpty
  | needle, b :: t => prefix_match needle (b :: t) || sub_list needle t

/-- Python `needle in hay` for strings. -/
def str_in (needle hay : String) : Bool := sub_list needle.data hay.data

/-- `ctype = (r.headers.get("Content-Type") or "").lower()` followed by the
JSON-branch test `"application/json" in ctype or r.text.lstrip().startswith("{")`
(polygon_api.py lines 53-56). -/
def is_json_branch (r : Response) : Bool :=
  str_in "application/json" (py_lower r.content_type)
    || prefix_match "\x7b".data (py_lstrip r.text).data

/-- Outcome value of a classified API response: a structured JSON result or a
raw text body. -/
inductive ApiValue where
  | json (j : Json) : ApiValue
  | text (s : String) : ApiValue

/-- Classified API failures: an explicit non-OK envelope (`Remote`), a failing
HTTP status with a non-JSON body (`Transport`), a JSON-branch body that does
not parse (`decode`), or a parsed body that is not an object, on which
`j.get` would fail (`not_obj`). -/
inductive ApiFailure where
  | remote (msg : String) : ApiFailure
  | transport (code : Nat) (body : String) : ApiFailure
  | decode : ApiFailure
  | not_obj : ApiFailure

/-- `status == "OK"` test on the envelope: `j.get("status") != "OK"` raises
(Python equality with a string holds only for an equal string). -/
def status_ok (kvs : List (String × Json)) : Bool :=
  match jlookup kvs "status" with
  | some (.str s) => s == "OK"
  | _ => false

/-- The Remote-failure message `j.get("comment", str(j))`. -/
def comment_msg (kvs : List (String × Json)) (j : Json) : String :=
  match jlookup kvs "comment" with
  | some c => json_repr c
  | none => json_repr j

/-- `j.get("result", {})`: the success value, an absent result treated as
empty. -/
def result_value (kvs : List (String × Json)) : Json :=
  (jlookup kvs "result").getD (.obj [])

/-- Response classification of `polygon_api_call`
(src/src/polygon_api.py lines 53-67). -/
def classify_response (r : Response) : Except ApiFailure ApiValue :=
  if is_json_branch r then
    match r.json_body with
    | none => .error .decode
    | some j =>
      match j with
      | .obj kvs =>
          if status_ok kvs then .ok (.json (result_value kvs))
          else .error (.remote (comment_msg kvs j))
      | _ => .error .not_obj
  else if 400 ≤ r.status_code then .error (.transport r.status_code r.text)
  else .ok (.text r.text)

/-! ## Python values and errors

`PyVal` models the Python values flowing through the pipeline (parsed YAML
documents, API parameters and results). `PyErr` models a raised exception:
its class and its message. `BuildError` subclasses `RuntimeError` in the
source, but an `except BuildError` clause catches only `BuildError` itself,
which the `kind` field captures.
-/

/-- A single-quote character, used inside embedded Python message strings. -/
def qm : String := String.singleton (Char.ofNat 39)

/-- Python values. -/
inductive PyVal where
  | none : PyVal
  | bool (b : Bool) : PyVal
  | int (n : Int) : PyVal
  | str (s : String) : PyVal
  | list (xs : List PyVal) : PyVal
  | dict (kvs : List (String × PyVal)) : PyVal

/-- Python exception classes appearing in the embedded code. -/
inductive PyKind where
  | buildError : PyKind
  | runtimeError : PyKind
  | keyError : PyKind
  | typeError : PyKind
  | attributeError : PyKind
  | configError : PyKind
deriving DecidableEq, BEq

/-- A raised Python exception: its class and message. -/
structure PyErr where
  kind : PyKind
  msg : String

/-- Python `dict` lookup on an association list (`d.get(k)` / `k in d`). -/
def pylookup (kvs : List (String × PyVal)) (k : String) : Option PyVal :=
  (kvs.find? fun kv => kv.1 == k).map (fun kv => kv.2)

/-- Python truthiness. -/
def py_truthy : PyVal → Bool
  | .none => false
  | .bool b => b
  | .int n => n != 0
  | .str s => !s.isEmpty
  | .list xs => !xs.isEmpty
  | .dict kvs => !kvs.isEmpty

mutual

/-- Python `str()` of a value (container rendering approximates repr). -/
def py_str_of : PyVal → String
  | .none => "None"
  | .bool true => "True"
  | .bool false => "False"
  | .int n => toString n
  | .str s => s
  | .list xs => "[" ++ String.intercalate ", " (py_str_list xs) ++ "]"
  | .dict kvs => "\x7b" ++ String.intercalate ", " (py_str_pairs kvs) ++ "\x7d"

def py_str_list : List PyVal → List String
  | [] => []
  | x :: t => py_str_of x :: py_str_list t

def py_str_pairs : List (String × PyVal) → List String
  | [] => []
  | (k, v) :: t => (k ++ ": " ++ py_str_of v) :: py_str_pairs t

end

/-! ## Document validation (`load_problem_config`, src/src/config.py lines 58-134)

Reading the YAML file from disk is external; the embedding takes the parsed
top-level mapping. The path-resolution block after validation (config.py
lines 136-151) touches only the filesystem representation and is not
modelled; validation succeeds with the document unchanged.
-/

/-- Python `"\n".join(errors)`. -/
def join_nl : List String → String
  | [] => ""
  | [x] => x
  | x :: y :: t => x ++ "\n" ++ join_nl (y :: t)

/-- `enumerate(l)`. -/
def enumerate {α : Type} (l : List α) : List (Nat × α) := (List.range l.length).zip l

/-- `_require` (config.py lines 21-25): the complaints it appends, and the
value handed on (`None` when the key is missing). -/
def _require (m : List (String × PyVal)) (key ctx : String) : PyVal × List String :=
  match pylookup m key with
  | Option.none => (.none, [s!"Missing {qm}{ctx}.{key}{qm}"])
  | some v => (v, [])

/-- `_require_str` (config.py lines 28-32): complaints only, since
`load_problem_config` discards its return value. -/
def _require_str (v : PyVal) (ctx : String) : List String :=
  match v with
  | .str s => if py_strip s == "" then [s!"Expected non-empty string for {qm}{ctx}{qm}"] else []
  | _ => [s!"Expected non-empty string for {qm}{ctx}{qm}"]

/-- `_require_int` (config.py lines 35-39); Python `bool` is an `int`. -/
def _require_int (v : PyVal) (ctx : String) : List String :=
  match v with
  | .int _ => []
  | .bool _ => []
  | _ => [s!"Expected integer for {qm}{ctx}{qm}"]

/-- A required string field: `_require` then `_require_str`. -/
def req_field_str (m : List (String × PyVal)) (key ctx : String) : List String :=
  let (v, e) := _require m key ctx
  e ++ _require_str v s!"{ctx}.{key}"

/-- A required integer field: `_require` then `_require_int`. -/
def req_field_int (m : List (String × PyVal)) (key ctx : String) : List String :=
  let (v, e) := _require m key ctx
  e ++ _require_int v s!"{ctx}.{key}"

/-- `raw.get(name)` with the section-shape check
(`Missing or invalid ... section`), yielding the section mapping (empty on
failure) and the complaints. -/
def section_of (doc : List (String × PyVal)) (name : String) :
    List (String × PyVal) × List String :=
  match pylookup doc name with
  | some (.dict kvs) => (kvs, [])
  | _ => ([], [s!"Missing or invalid {qm}{name}{qm} section"])

/-- The `problem.tags` checks (config.py lines 75-80). -/
def tags_errors (problem : List (String × PyVal)) : List String :=
  match pylookup problem "tags" with
  | Option.none => []
  | some .none => []
  | some (.list xs) =>
      (enumerate xs).flatMap fun it => _require_str it.2 s!"problem.tags[{it.1}]"
  | some _ => [s!"Expected list for {qm}problem.tags{qm}"]

/-- The `statement.language` check (config.py lines 87-89): the default
`"english"` is a string, so only a present non-string value complains. -/
def language_errors (statement : List (String × PyVal)) : List String :=
  match pylookup statement "language" with
  | Option.none => []
  | some (.str _) => []
  | some _ => [s!"Expected string for {qm}statement.language{qm}"]

/-- The `files.solutions` checks (config.py lines 102-113). -/
def solutions_errors (files : List (String × PyVal)) : List String :=
  match (pylookup files "solutions").getD (.list []) with
  | .list sols =>
      (enumerate sols).flatMap fun it =>
        match it.2 with
        | .dict sol =>
            _require_str ((pylookup sol "path").getD .none) s!"files.solutions[{it.1}].path"
              ++ _require_str ((pylookup sol "language").getD .none)
                  s!"files.solutions[{it.1}].language"
              ++ _require_str ((pylookup sol "tag").getD .none) s!"files.solutions[{it.1}].tag"
        | _ => [s!"Expected object for {qm}files.solutions[{it.1}]{qm}"]
  | _ => [s!"Expected list for {qm}files.solutions{qm}"]

/-- The `tests.generators` checks (config.py lines 122-132). -/
def generators_errors (tests : List (String × PyVal)) : List String :=
  match (pylookup tests "generators").getD (.list []) with
  | .list gens =>
      (enumerate gens).flatMap fun it =>
        match it.2 with
        | .dict gen =>
            _require_str ((pylookup gen "path").getD .none) s!"tests.generators[{it.1}].path"
              ++ _require_str ((pylookup gen "language").getD .none)
                  s!"tests.generators[{it.1}].language"
        | _ => [s!"Expected object for {qm}tests.generators[{it.1}]{qm}"]
  | _ => [s!"Expected list for {qm}tests.generators{qm}"]

/-- Every complaint `load_problem_config` collects over the whole document,
in source order (config.py lines 63-132). -/
def config_errors (doc : List (String × PyVal)) : List String :=
  let (problem, e_prob) := section_of doc "problem"
  let (statement, e_stmt) := section_of doc "statement"
  let (files, e_files) := section_of doc "files"
  let (tests, e_tests) := section_of doc "tests"
  e_prob
    ++ req_field_str problem "polygon_name" "problem"
    ++ req_field_str problem "name" "problem"
    ++ req_field_int problem "timelimit_ms" "problem"
    ++ req_field_int problem "memory_mb" "problem"
    ++ tags_errors problem
    ++ e_stmt
    ++ language_errors statement
    ++ req_field_str statement "legend_md" "statement"
    ++ req_field_str statement "input_md" "statement"
    ++ req_field_str statement "output_md" "statement"
    ++ req_field_str statement "notes_md" "statement"
    ++ e_files
    ++ req_field_str files "checker" "files"
    ++ req_field_str files "validator_path" "files"
    ++ solutions_errors files
    ++ e_tests
    ++ req_field_str tests "samples_path" "tests"
    ++ generators_errors tests

/-- `load_problem_config` (config.py lines 58-134): collect every complaint,
then raise a single `ConfigError` joining them, or succeed. -/
def load_problem_config (doc : List (String × PyVal)) :
    Except String (List (String × PyVal)) :=
  match config_errors doc with
  | [] => .ok doc
  | e => .error (join_nl e)

/-! ## Method registry (src/src/polygon_methods.py lines 16-79) -/

/-- `METHODS`: operation key to `(method_name, confirmed)`
(polygon_methods.py lines 16-65). -/
def METHODS : List (String × String × Bool) :=
  [("list_problems", "problems.list", true),
   ("create_problem", "problem.create", true),
   ("problem_info", "problem.info", true),
   ("update_info", "problem.updateInfo", true),
   ("commit_changes", "problem.commitChanges", true),
   ("update_working_copy", "problem.updateWorkingCopy", true),
   ("discard_working_copy", "problem.discardWorkingCopy", true),
   ("save_tags", "problem.saveTags", true),
   ("statements", "problem.statements", true),
   ("save_statement", "problem.saveStatement", true),
   ("statement_resources", "problem.statementResources", true),
   ("save_statement_resource", "problem.saveStatementResource", true),
   ("files", "problem.files", true),
   ("save_file", "problem.saveFile", true),
   ("view_file", "problem.viewFile", true),
   ("checker", "problem.checker", true),
   ("set_checker", "problem.setChecker", true),
   ("validator", "problem.validator", true),
   ("set_validator", "problem.setValidator", true),
   ("solutions", "problem.solutions", true),
   ("save_solution", "problem.saveSolution", true),
   ("script", "problem.script", true),
   ("save_script", "problem.saveScript", true),
   ("tests", "problem.tests", true),
   ("save_test", "problem.saveTest", true),
   ("test_input", "problem.testInput", true),
   ("test_answer", "problem.testAnswer", true),
   ("validator_tests", "problem.validatorTests", true),
   ("save_validator_test", "problem.saveValidatorTest", true),
   ("checker_tests", "problem.checkerTests", true),
   ("save_checker_test", "problem.saveCheckerTest", true)]

/-- `get_method` (polygon_methods.py lines 69-79): a missing key is a
`KeyError`, an unconfirmed entry a `RuntimeError`. -/
def get_method (key : String) : Except PyErr String :=
  match METHODS.find? (fun e => e.1 == key) with
  | Option.none => .error ⟨.keyError, s!"Missing Polygon method name for: {key}"⟩
  | some e =>
      if e.2.2 then .ok e.2.1
      else .error ⟨.runtimeError,
        s!"Polygon method name for {qm}{key}{qm} is unconfirmed. Assumed {qm}{e.2.1}{qm}. Please update src/polygon_methods.py."⟩

/-! ## Traced execution of the pipeline (src/src/build.py)

A pipeline computation is a `Run`: its outcome (a value or a raised
exception), the list of HTTP calls issued (`polygon_api_call` invocations,
each a method name with its parameters), and the lines printed by the stage
runner. The HTTP exchange is an oracle `Api` mapping a method and its
parameters to the classified outcome of `polygon_api_call`: a result value,
or the message of the `RuntimeError` it raises (polygon_api.py raises
`RuntimeError` on every failure path). The filesystem is an oracle
`String → String` from a path to the text read.
-/

/-- One issued HTTP call: resolved method name and parameters. -/
structure Call where
  method : String
  params : List (String × PyVal)

/-- The network oracle: outcome of one `polygon_api_call` exchange. -/
def Api : Type := String → List (String × PyVal) → Except String PyVal

/-- A traced pipeline computation. -/
structure Run (α : Type) where
  val : Except PyErr α
  calls : List Call
  out : List String

/-- Computation returning `a` with no effects. -/
def Run.pure {α : Type} (a : α) : Run α := ⟨.ok a, [], []⟩

/-- Raise an exception with no effects. -/
def Run.fail {α : Type} (e : PyErr) : Run α := ⟨.error e, [], []⟩

/-- Sequencing: effects accumulate; a raised exception short-circuits. -/
def Run.bind {α β : Type} (x : Run α) (f : α → Run β) : Run β :=
  match x.val with
  | .error e => ⟨.error e, x.calls, x.out⟩
  | .ok a => ⟨(f a).val, x.calls ++ (f a).calls, x.out ++ (f a).out⟩

/-- `polygon_api_call` at the transport level (polygon_api.py lines 30-67):
issues one HTTP call; a failure outcome is a raised `RuntimeError`. -/
def polygon_api_call (api : Api) (method_name : String)
    (params : List (String × PyVal)) : Run PyVal :=
  match api method_name params with
  | .error m => ⟨.error ⟨.runtimeError, m⟩, [⟨method_name, params⟩], []⟩
  | .ok v => ⟨.ok v, [⟨method_name, params⟩], []⟩

/-- `_call` (build.py lines 48-56): resolve the method key, do nothing under
dry-run (returning `None`), otherwise call and wrap any failure as a
`BuildError`. -/
def _call (api : Api) (method_key : String) (params : List (String × PyVal))
    (dry_run : Bool) : Run PyVal :=
  match get_method method_key with
  | .error e => ⟨.error e, [], []⟩
  | .ok method_name =>
      if dry_run then ⟨.ok .none, [], []⟩
      else
        match api method_name params with
        | .error m =>
            ⟨.error ⟨.buildError, s!"Polygon call failed for {method_name}: {m}"⟩,
              [⟨method_name, params⟩], []⟩
        | .ok v => ⟨.ok v, [⟨method_name, params⟩], []⟩

/-- `_is_not_found` (build.py lines 59-61). -/
def _is_not_found (msg : String) : Bool :=
  str_in "not found" (py_lower msg) || str_in "does not exist" (py_lower msg)

/-- `_stage` (build.py lines 17-24): start marker, body, completion marker;
any exception is wrapped as a `BuildError` carrying the label. -/
def _stage {α : Type} (number : Nat) (title : String) (body : Run α) : Run α :=
  let label := s!"STAGE {number}: {title}"
  match body.val with
  | .error e =>
      ⟨.error ⟨.buildError, s!"{label} FAILED: {e.msg}"⟩, body.calls, label :: body.out⟩
  | .ok a => ⟨.ok a, body.calls, label :: (body.out ++ [label ++ " DONE"])⟩

/-- `PL_check_problem_exists` (polygon_methods.py lines 86-90): list problems
by name; `None` or an empty result means absent, otherwise `resp[0]["id"]`.
Subscripting failure messages are approximated. -/
def PL_check_problem_exists (api : Api) (name : PyVal) : Run PyVal :=
  (polygon_api_call api "problems.list" [("name", name)]).bind fun resp =>
    match resp with
    | .none => Run.pure .none
    | .list [] => Run.pure .none
    | .list (x :: _) =>
        match x with
        | .dict kvs =>
            match pylookup kvs "id" with
            | some v => Run.pure v
            | Option.none => Run.fail ⟨.keyError, "id"⟩
        | _ => Run.fail ⟨.typeError, "indices must be integers"⟩
    | .str s => if s.isEmpty then Run.pure .none
        else Run.fail ⟨.typeError, "string indices must be integers"⟩
    | .dict kvs => if kvs.isEmpty then Run.pure .none
        else Run.fail ⟨.keyError, "0"⟩
    | _ => Run.fail ⟨.typeError, "object has no len()"⟩

/-- `PL_create_problem` (polygon_methods.py lines 96-103): re-check existence
immediately beforehand and fail loudly if found; otherwise create and return
the new id. -/
def PL_create_problem (api : Api) (name : PyVal) : Run PyVal :=
  (PL_check_problem_exists api name).bind fun existing =>
    if py_truthy existing then
      Run.fail ⟨.runtimeError,
        s!"Problem with name {qm}{py_str_of name}{qm} already exists"⟩
    else
      (polygon_api_call api "problem.create" [("name", name)]).bind fun resp =>
        match resp with
        | .dict kvs =>
            match (pylookup kvs "id").getD .none with
            | .none => Run.fail ⟨.runtimeError, "Failed to create problem"⟩
            | v => Run.pure v
        | _ => Run.fail ⟨.attributeError, "no attribute get"⟩

/-! ## Stage bodies and the pipeline (src/src/build.py lines 104-366)

`build` runs `load_problem_config`, checks `polygon_name`, then executes
exactly the stages that are live in the source: `_stage 1` and `_stage 9`
(stages 2-8 are commented out at build.py lines 358-364, and `exit(0)`
follows). The mutable `state["problem_id"]` cell is threaded as the value
returned by stage 1 and consumed by stage 9. Stage bodies for the commented
stages that the claims examine (`stage2`, `stage7`, `stage8`) are embedded
as standalone functions over their free variables.
-/

/-- The create branch of `stage1` (build.py lines 137-141): create, then
store the new id in the build state only under dry-run; outside dry-run the
state keeps its previous value. -/
def stage1_create (api : Api) (dry_run : Bool) (polygon_name problem_id0 : PyVal) :
    Run PyVal :=
  (PL_create_problem api polygon_name).bind fun created =>
    if dry_run then Run.pure created else Run.pure problem_id0

/-- `stage1` (build.py lines 120-141): look up the problem; `except
BuildError` with a not-found message falls through to creation, any other
exception propagates; if found, store the id. Returns the new
`state["problem_id"]`. -/
def stage1 (api : Api) (dry_run : Bool) (polygon_name problem_id0 : PyVal) :
    Run PyVal :=
  let chk := PL_check_problem_exists api polygon_name
  match chk.val with
  | .error e =>
      if e.kind == .buildError && _is_not_found e.msg then
        let cr := stage1_create api dry_run polygon_name problem_id0
        ⟨cr.val, chk.calls ++ cr.calls, chk.out ++ cr.out⟩
      else ⟨.error e, chk.calls, chk.out⟩
  | .ok pid =>
      match pid with
      | .none =>
          let cr := stage1_create api dry_run polygon_name problem_id0
          ⟨cr.val, chk.calls ++ cr.calls, chk.out ++ cr.out⟩
      | v => ⟨.ok v, chk.calls, chk.out⟩

/-- `stage2` (build.py lines 143-165): push limits, and tags if truthy. The
`problem[...]` subscripts are evaluated while building the parameter dict. -/
def stage2 (api : Api) (dry_run : Bool) (problem_id : PyVal)
    (problem : List (String × PyVal)) : Run Unit :=
  match pylookup problem "timelimit_ms" with
  | Option.none => Run.fail ⟨.keyError, "timelimit_ms"⟩
  | some tl =>
    match pylookup problem "memory_mb" with
    | Option.none => Run.fail ⟨.keyError, "memory_mb"⟩
    | some mem =>
      (_call api "update_info"
          [("problemId", problem_id), ("timeLimit", tl), ("memoryLimit", mem)]
          dry_run).bind fun _ =>
        let tags := (pylookup problem "tags").getD .none
        if py_truthy tags then
          (_call api "set_tags" [("problemId", problem_id), ("tags", tags)]
              dry_run).bind fun _ => Run.pure ()
        else Run.pure ()

/-- `script_cmd not in (None, "")` (build.py lines 251 and 282). -/
def not_none_or_empty : PyVal → Bool
  | .none => false
  | .str "" => false
  | _ => true

/-- `load_tests_file` (config.py lines 156-165) on the parsed content of the
tests file; reading the file from disk and its existence check are
external. -/
def load_tests_file (path : String) (content : PyVal) : Except PyErr (List PyVal) :=
  match content with
  | .list xs => .ok xs
  | _ => .error ⟨.configError, s!"Expected list in tests file: {path}"⟩

/-- `isinstance(·, str)` on an optional field value (absent behaves as
Python `None`). -/
def is_str : Option PyVal → Bool
  | some (.str _) => true
  | _ => false

/-- The `out` check: absent, or a string. -/
def opt_str_ok : Option PyVal → Bool
  | Option.none => true
  | some (.str _) => true
  | _ => false

/-- The `example` check: absent, or exactly the string `"true"` or the
string `"false"` (Python `in ("true", "false")` compares with `==`, which
never equates a boolean with a string). -/
def example_ok : Option PyVal → Bool
  | Option.none => true
  | some (.str "true") => true
  | some (.str "false") => true
  | _ => false

/-- The per-entry checks of `_load_samples` (build.py lines 66-76), first
failure wins. -/
def check_sample (idx : Nat) (s : PyVal) : Option PyErr :=
  match s with
  | .dict kvs =>
      if (pylookup kvs "in").isNone then
        some ⟨.configError, s!"Missing in for samples[{idx}]"⟩
      else if !is_str (pylookup kvs "in") then
        some ⟨.configError, s!"Expected string for samples[{idx}].in"⟩
      else if !opt_str_ok (pylookup kvs "out") then
        some ⟨.configError, s!"Expected string for samples[{idx}].out"⟩
      else if !example_ok (pylookup kvs "example") then
        some ⟨.configError,
          s!"Expected {qm}true{qm} or {qm}false{qm} for samples[{idx}].example"⟩
      else Option.none
  | _ => some ⟨.configError, s!"Expected object for samples[{idx}]"⟩

/-- The validation loop of `_load_samples` over `enumerate(samples)`. -/
def check_samples_from (idx : Nat) : List PyVal → Option PyErr
  | [] => Option.none
  | s :: t =>
      match check_sample idx s with
      | some e => some e
      | Option.none => check_samples_from (idx + 1) t

/-- `_load_samples` (build.py lines 64-77): load the tests file and validate
every entry, returning the samples unchanged. -/
def _load_samples (path : String) (content : PyVal) : Except PyErr (List PyVal) :=
  match load_tests_file path content with
  | .error e => .error e
  | .ok samples =>
      match check_samples_from 0 samples with
      | some e => .error e
      | Option.none => .ok samples

/-- The `save_test` loop of `stage7` (build.py lines 263-280), `idx` counting
from 1. -/
def save_tests_loop (api : Api) (dry_run : Bool) (pid : PyVal) (idx : Int) :
    List PyVal → Run Unit
  | [] => Run.pure ()
  | s :: t =>
      match s with
      | .dict kvs =>
          (_call api "save_test"
              [("problemId", pid), ("testset", .str "tests"), ("testIndex", .int idx),
               ("testInput", (pylookup kvs "in").getD .none),
               ("testUseInStatements", (pylookup kvs "example").getD (.str "false")),
               ("testOutputForStatements", (pylookup kvs "out").getD (.str ""))]
              dry_run).bind fun _ => save_tests_loop api dry_run pid (idx + 1) t
      | _ => Run.fail ⟨.attributeError, "no attribute get"⟩

/-- `stage7` (build.py lines 241-292): validate samples, fetch the current
script, clear it if non-empty, push every sample test, restore the script. -/
def stage7 (api : Api) (dry_run : Bool) (pid : PyVal) (samples_path : String)
    (samples_content : PyVal) : Run Unit :=
  match _load_samples samples_path samples_content with
  | .error e => Run.fail e
  | .ok samples =>
      (_call api "script" [("problemId", pid), ("testset", .str "tests")]
          dry_run).bind fun script_cmd =>
        (if not_none_or_empty script_cmd then
            (_call api "save_script"
                [("problemId", pid), ("testset", .str "tests"), ("source", .str " ")]
                dry_run).bind fun _ => Run.pure ()
          else Run.pure ()).bind fun _ =>
          (save_tests_loop api dry_run pid 1 samples).bind fun _ =>
            if not_none_or_empty script_cmd then
              (_call api "save_script"
                  [("problemId", pid), ("testset", .str "tests"),
                   ("source", script_cmd)] dry_run).bind fun _ => Run.pure ()
            else Run.pure ()

/-- Python `Path(p).name`: the component after the final slash. -/
def path_name (p : String) : String :=
  String.mk ((p.data.reverse.takeWhile fun c => c != '/').reverse)

/-- Python `Path(p).stem`: `path_name` with the final extension removed
(a leading dot alone is not an extension). -/
def path_stem (p : String) : String :=
  let n := (path_name p).data
  let rev := n.reverse
  if rev.any (fun c => c == '.') then
    match (rev.dropWhile fun c => c != '.').drop 1 with
    | [] => String.mk n
    | rest => String.mk rest.reverse
  else String.mk n

/-- `add_file_source` (build.py lines 90-102); `fs` is the filesystem oracle
standing for `_read_text` (BOM stripping happens in the external read). -/
def add_file_source (api : Api) (fs : String → String) (problem_id : PyVal)
    (file_path : String) (dry_run : Bool) : Run PyVal :=
  _call api "save_file"
    [("problemId", problem_id), ("type", .str "source"),
     ("name", .str (path_name file_path)), ("file", .str (fs file_path))]
    dry_run

/-- Extraction of one generator entry as `stage8` reads it: `gen["path"]`,
`gen.get("repeat", 1)`, `gen.get("cmd", "")` (build.py lines 302-305).
Python `bool` arithmetic coerces to 1 or 0. -/
def gen_fields (g : PyVal) : Except PyErr (String × Int × PyVal) :=
  match g with
  | .dict kvs =>
      match pylookup kvs "path" with
      | Option.none => .error ⟨.keyError, "path"⟩
      | some (.str p) =>
          (match (pylookup kvs "repeat").getD (.int 1) with
           | .int r => .ok (p, r, (pylookup kvs "cmd").getD (.str ""))
           | .bool b => .ok (p, if b then 1 else 0, (pylookup kvs "cmd").getD (.str ""))
           | _ => .error ⟨.typeError, "unsupported operand type for +"⟩)
      | some _ => .error ⟨.typeError, "argument should be a str"⟩
  | _ => .error ⟨.typeError, "not subscriptable"⟩

/-- The script fragment one command-less generator appends: a freemarker
range over its claimed slots (build.py lines 315-317). -/
def range_fragment (c : Int) (r : Int) (stem : String) : String :=
  s!"\n<#list {c}..{c + r - 1} as i >\n" ++ s!"   {stem} $\x7bi\x7d > $\n" ++ "</#list>\n"

/-- The generator loop of `stage8` (build.py lines 301-320): build the script
and upload each generator source, threading `script_cmd` and `cnt`. Returns
the final script text. -/
def stage8_loop (api : Api) (fs : String → String) (dry_run : Bool) (pid : PyVal)
    (script_cmd : String) (cnt : Int) : List PyVal → Run String
  | [] => Run.pure script_cmd
  | g :: t =>
      match gen_fields g with
      | .error e => Run.fail e
      | .ok (p, r, cmd) =>
          let step : String × Int :=
            if not_none_or_empty cmd then (script_cmd ++ "\n" ++ py_str_of cmd, cnt)
            else (script_cmd ++ range_fragment cnt r (path_stem p), cnt + r)
          (add_file_source api fs pid p dry_run).bind fun _ =>
            stage8_loop api fs dry_run pid step.1 step.2 t

/-- `stage8` (build.py lines 294-330): run the generator loop starting at
slot 1 with an empty script, then save the script. -/
def stage8 (api : Api) (fs : String → String) (dry_run : Bool) (pid : PyVal)
    (tests : List (String × PyVal)) : Run Unit :=
  match (pylookup tests "generators").getD (.list []) with
  | .list gens =>
      (stage8_loop api fs dry_run pid "" 1 gens).bind fun script_cmd =>
        (_call api "save_script"
            [("problemId", pid), ("testset", .str "tests"),
             ("source", .str script_cmd)] dry_run).bind fun _ => Run.pure ()
  | _ => Run.fail ⟨.typeError, "not iterable"⟩

/-- `stage9` (build.py lines 332-354): commit, then build the package. -/
def stage9 (api : Api) (dry_run : Bool) (pid : PyVal) : Run Unit :=
  (_call api "commit_changes" [("problemId", pid), ("minorChanges", .str "true")]
      dry_run).bind fun _ =>
    (_call api "build_package"
        [("problemId", pid), ("full", .str "false"), ("verify", .str "true")]
        dry_run).bind fun _ => Run.pure ()

/-- `build` (build.py lines 104-366): validate the document, require
`problem.polygon_name`, then run the live stages — `_stage 1` and
`_stage 9` — threading `state["problem_id"]` (initially `None`). -/
def build (doc : List (String × PyVal)) (dry_run : Bool) (api : Api) : Run Unit :=
  match load_problem_config doc with
  | .error msg => Run.fail ⟨.configError, msg⟩
  | .ok _ =>
      let problem :=
        match (pylookup doc "problem").getD (.dict []) with
        | .dict kvs => kvs
        | _ => []
      let polygon_name := (pylookup problem "polygon_name").getD .none
      if py_truthy polygon_name then
        (_stage 1 "Problem init (by polygon_id)"
            (stage1 api dry_run polygon_name .none)).bind fun pid =>
          (_stage 9 "commit and Package" (stage9 api dry_run pid)).bind fun _ =>
            Run.pure ()
      else Run.fail ⟨.buildError, "problem.polygon_name is required"⟩

/-! ## Derived and specification-side definitions -/

/-- `needle` occurs verbatim inside `hay`. -/
def sub_string_of (needle hay : String) : Prop :=
  ∃ pre post, hay.data = pre ++ needle.data ++ post

/-- A generator entry `(path, repeat, cmd)` as the dict `stage8` reads. -/
def gen_dict (g : String × Int × PyVal) : PyVal :=
  .dict [("path", .str g.1), ("repeat", .int g.2.1), ("cmd", g.2.2)]

/-- The repeat counts of the generators without an explicit command. -/
def gen_repeats (gens : List (String × Int × PyVal)) : List Int :=
  (gens.filter fun g => !not_none_or_empty g.2.2).map fun g => g.2.1

/-- The script text `stage8` accumulates from slot counter `c` on. -/
def script_of (c : Int) : List (String × Int × PyVal) → String
  | [] => ""
  | g :: t =>
      if not_none_or_empty g.2.2 then ("\n" ++ py_str_of g.2.2) ++ script_of c t
      else range_fragment c g.2.1 (path_stem g.1) ++ script_of (c + g.2.1) t

/-- For each command-less generator, in order: its stem, the first slot of
its block, and its repeat count, as the `cnt` threading of `stage8`
produces them. -/
def stage8_ranges (c : Int) : List (String × Int × PyVal) → List (String × Int × Int)
  | [] => []
  | g :: t =>
      if not_none_or_empty g.2.2 then stage8_ranges c t
      else (path_stem g.1, c, g.2.1) :: stage8_ranges (c + g.2.1) t

/-- Contiguous slot blocks `[c, c+r-1]` for repeat counts `rs` starting at
slot `c`. -/
def slot_blocks (c : Int) : List Int → List (Int × Int)
  | [] => []
  | r :: rs => (c, c + r - 1) :: slot_blocks (c + r) rs

/-- The `save_file` call `add_file_source` issues for a path. -/
def save_file_call (pid : PyVal) (fs : String → String) (p : String) : Call :=
  ⟨"problem.saveFile",
   [("problemId", pid), ("type", .str "source"),
    ("name", .str (path_name p)), ("file", .str (fs p))]⟩

/-- The `save_script` call `stage8` issues for the finished script. -/
def save_script_call (pid : PyVal) (src : String) : Call :=
  ⟨"problem.saveScript",
   [("problemId", pid), ("testset", .str "tests"), ("source", .str src)]⟩

/-- Acceptance predicate for one samples entry: a mapping whose `in` is a
string, whose `out` (when present) is a string, and whose `example` (when
present) is exactly the string `"true"` or the string `"false"`. -/
def sample_ok (s : PyVal) : Bool :=
  match s with
  | .dict kvs =>
      is_str (pylookup kvs "in") && opt_str_ok (pylookup kvs "out")
        && example_ok (pylookup kvs "example")
  | _ => false

/-! ## Concrete inputs used by witnesses and evaluations -/

/-- An oracle whose every exchange raises `problem not found`. -/
def api_not_found : Api := fun _ _ => .error "problem not found"

/-- An oracle for a fresh remote: no problem exists, creation yields id
12345, every other exchange succeeds with an empty envelope result. -/
def api_fresh : Api := fun m _ =>
  if m == "problems.list" then .ok (.list [])
  else if m == "problem.create" then .ok (.dict [("id", .int 12345)])
  else .ok (.dict [])

/-- An oracle that always succeeds with `None`. -/
def api_ok_none : Api := fun _ _ => .ok .none

/-- A filesystem oracle with fixed content. -/
def fs_const : String → String := fun _ => "file-content"

/-- A fully valid document whose single solution is tagged `WA`, not `MA`. -/
def doc_ok : List (String × PyVal) :=
  [("problem", .dict [("polygon_name", .str "two-sum"), ("name", .str "Two Sum"),
      ("timelimit_ms", .int 2000), ("memory_mb", .int 256)]),
   ("statement", .dict [("legend_md", .str "legend.md"), ("input_md", .str "input.md"),
      ("output_md", .str "output.md"), ("notes_md", .str "notes.md")]),
   ("files", .dict [("checker", .str "lcmp"), ("validator_path", .str "val.cpp"),
      ("solutions", .list [.dict [("path", .str "sol.cpp"),
          ("language", .str "cpp"), ("tag", .str "WA")]])]),
   ("tests", .dict [("samples_path", .str "samples.yaml")])]

/-- `doc_ok` with `problem.timelimit_ms` and `files.checker` removed. -/
def doc_both : List (String × PyVal) :=
  [("problem", .dict [("polygon_name", .str "two-sum"), ("name", .str "Two Sum"),
      ("memory_mb", .int 256)]),
   ("statement", .dict [("legend_md", .str "legend.md"), ("input_md", .str "input.md"),
      ("output_md", .str "output.md"), ("notes_md", .str "notes.md")]),
   ("files", .dict [("validator_path", .str "val.cpp"),
      ("solutions", .list [.dict [("path", .str "sol.cpp"),
          ("language", .str "cpp"), ("tag", .str "MA")]])]),
   ("tests", .dict [("samples_path", .str "samples.yaml")])]

/-- A `problem` section declaring tags. -/
def problem_tags_ex : List (String × PyVal) :=
  [("polygon_name", .str "two-sum"), ("name", .str "Two Sum"),
   ("timelimit_ms", .int 2000), ("memory_mb", .int 256),
   ("tags", .list [.str "math"])]

/-- Samples content whose `example` field is the boolean `true`, not the
string `"true"`. -/
def samples_bool_example : PyVal :=
  .list [.dict [("in", .str "1 2"), ("example", .bool true)]]

/-- Generators with repeat counts 3 and 5 and no explicit command, then one
with an explicit command. -/
def gens_ex : List (String × Int × PyVal) :=
  [("gen_a.py", 3, .str ""), ("gen_b.py", 5, .str ""), ("gen_c.py", 1, .str "gen_c 1 > $")]

/-- A JSON envelope response with status `OK` and a string result. -/
def resp_ok : Response :=
  ⟨"application/json", 200, "",
   some (.obj [("status", .str "OK"), ("result", .str "42")])⟩

/-- A plain-text success response. -/
def resp_text : Response := ⟨"text/html", 200, "committed", Option.none⟩

/-- A failing stage body issuing one call before raising. -/
def body_fail : Run Nat :=
  ⟨.error ⟨.runtimeError, "boom"⟩, [⟨"problem.info", []⟩], []⟩

/-- A subsequent stage body with an observable call. -/
def rest_body : Run Unit := ⟨.ok (), [⟨"problem.commitChanges", []⟩], ["later"]⟩

/-! ## Theorems -/

theorem toString_str (s : String) : toString s = s := rfl

/-- **C3.** Evaluation at the failing input: the stage-1 lookup raises a
`RuntimeError` (every failure of `polygon_api_call` is a `RuntimeError`),
but the stage catches only `BuildError`, so even a `problem not found`
lookup error propagates unchanged out of the stage and creation is never
attempted — the trace holds the lookup call only, no `problem.create`. -/
theorem C3_stage1_lookup_error_evaluation :
    (stage1 api_not_found false (.str "two-sum") .none).val
        = .error ⟨.runtimeError, "problem not found"⟩
      ∧ (stage1 api_not_found false (.str "two-sum") .none).calls
        = [⟨"problems.list", [("name", .str "two-sum")]⟩]
      ∧ _is_not_found "problem not found" = true := by
  exact ⟨rfl, rfl, by decide⟩

/-- **C4.** Evaluation of a full dry-run over a valid document with no
`MA`-tagged solution: stage 1 still issues the mutating `problem.create`
call (the `PL_*` helpers bypass the dry-run guard of `_call`), and no
missing-main-solution error is ever raised — the solutions stage is
commented out of the pipeline; the run instead fails in stage 9 on the
unmapped `build_package` registry key. -/
theorem C4_dry_run_evaluation :
    (build doc_ok true api_fresh).calls
        = [⟨"problems.list", [("name", .str "two-sum")]⟩,
           ⟨"problems.list", [("name", .str "two-sum")]⟩,
           ⟨"problem.create", [("name", .str "two-sum")]⟩]
      ∧ (build doc_ok true api_fresh).val
        = .error ⟨.buildError,
            "STAGE 9: commit and Package FAILED: Missing Polygon method name for: build_package"⟩
      ∧ (doc_ok.map fun kv => kv.1) = ["problem", "statement", "files", "tests"] := by
  exact ⟨rfl, rfl, rfl⟩

/-- **C6.** Evaluation of a full non-dry-run over a valid document against a
fresh remote: only stages 1 and 9 run (stages 2–8 are commented out), the
id 12345 issued by `problem.create` is never stored (the store happens only
under dry-run), so the commit call carries `problemId = None`, and the run
fails on the unmapped `build_package` key. -/
theorem C6_pipeline_evaluation :
    (build doc_ok false api_fresh).calls
        = [⟨"problems.list", [("name", .str "two-sum")]⟩,
           ⟨"problems.list", [("name", .str "two-sum")]⟩,
           ⟨"problem.create", [("name", .str "two-sum")]⟩,
           ⟨"problem.commitChanges", [("problemId", .none), ("minorChanges", .str "true")]⟩]
      ∧ (build doc_ok false api_fresh).out
        = ["STAGE 1: Problem init (by polygon_id)",
           "STAGE 1: Problem init (by polygon_id) DONE",
           "STAGE 9: commit and Package"]
      ∧ (build doc_ok false api_fresh).val
        = .error ⟨.buildError,
            "STAGE 9: commit and Package FAILED: Missing Polygon method name for: build_package"⟩
      ∧ api_fresh "problem.create" [("name", .str "two-sum")]
        = .ok (.dict [("id", .int 12345)]) := by
  exact ⟨rfl, rfl, rfl, rfl⟩

/-- **C9.** Evaluation of the settings stage with tags declared: the
update-info call is issued with the document limits, but resolving the
`set_tags` key raises `KeyError` — the registry maps `save_tags`, not
`set_tags` — so no tags call is issued and the stage raises instead of
completing. -/
theorem C9_set_tags_evaluation :
    (stage2 api_fresh false (.int 7) problem_tags_ex).calls
        = [⟨"problem.updateInfo",
            [("problemId", .int 7), ("timeLimit", .int 2000), ("memoryLimit", .int 256)]⟩]
      ∧ (stage2 api_fresh false (.int 7) problem_tags_ex).val
        = .error ⟨.keyError, "Missing Polygon method name for: set_tags"⟩
      ∧ get_method "set_tags" = .error ⟨.keyError, "Missing Polygon method name for: set_tags"⟩
      ∧ METHODS.find? (fun e => e.1 == "save_tags") = some ("save_tags", "problem.saveTags", true) := by
  exact ⟨rfl, rfl, rfl, rfl⟩

/-- **C5.** The stage runner emits its start marker first, wraps any
exception raised by the body as a `BuildError` carrying the ordinal and
title and propagates it — so that nothing sequenced after the failed stage
contributes any effect — and on success emits the completion marker. -/
theorem C5_stage_runner_wrap_and_abort {α β : Type} (number : Nat) (title : String)
    (body : Run α) (rest : α → Run β) :
    ((_stage number title body).out.head? = some s!"STAGE {number}: {title}")
    ∧ (∀ e, body.val = .error e →
        ((_stage number title body).bind rest)
          = ⟨.error ⟨.buildError, s!"STAGE {number}: {title} FAILED: {e.msg}"⟩,
             body.calls, s!"STAGE {number}: {title}" :: body.out⟩)
    ∧ (∀ a, body.val = .ok a →
        (_stage number title body).val = .ok a
        ∧ (_stage number title body).out
          = s!"STAGE {number}: {title}"
              :: (body.out ++ [s!"STAGE {number}: {title}" ++ " DONE"])) := by
  refine ⟨?_, ?_, ?_⟩
  · cases h : body.val <;> simp [_stage, h]
  · intro e h
    simp [_stage, h, Run.bind, toString_str, String.append_assoc,
      String.append_empty, String.empty_append]
  · intro a h
    simp [_stage, h, toString_str, String.append_assoc,
      String.append_empty, String.empty_append]

/-- Witness for C5: a failing stage body composed with a later stage; the
later stage's call and output never appear. -/
theorem C5_stage_runner_wrap_and_abort_witness :
    (_stage 3 "English statement" body_fail).bind (fun _ => rest_body)
      = ⟨.error ⟨.buildError, "STAGE 3: English statement FAILED: boom"⟩,
         [⟨"problem.info", []⟩], ["STAGE 3: English statement"]⟩ :=
  (C5_stage_runner_wrap_and_abort 3 "English statement" body_fail
    (fun _ => rest_body)).2.1 ⟨.runtimeError, "boom"⟩ rfl

/-- **C2.** Response classification: in the JSON branch (JSON content type,
or body starting with `{` after left-strip) a parsed envelope with status
`OK` succeeds with its `result` (an absent result being the empty object),
and any other status is a Remote failure carrying `comment` (or the
rendered envelope when `comment` is absent); outside the JSON branch a
failing HTTP status is a Transport failure carrying code and body, and a
succeeding one returns the raw body text. -/
theorem C2_response_classification (r : Response) (kvs : List (String × Json)) :
    ((is_json_branch r = true ∧ r.json_body = some (.obj kvs)) →
        (status_ok kvs = true → classify_response r = .ok (.json (result_value kvs)))
      ∧ (jlookup kvs "result" = Option.none → result_value kvs = .obj [])
      ∧ (status_ok kvs = false →
          classify_response r = .error (.remote (comment_msg kvs (.obj kvs)))))
    ∧ (is_json_branch r = false →
        (400 ≤ r.status_code →
          classify_response r = .error (.transport r.status_code r.text))
      ∧ (r.status_code < 400 → classify_response r = .ok (.text r.text))) := by
  constructor
  · rintro ⟨hb, hj⟩
    refine ⟨?_, ?_, ?_⟩
    · intro hs; simp [classify_response, hb, hj, hs]
    · intro hres; simp [result_value, hres]
    · intro hs; simp [classify_response, hb, hj, hs]
  · intro hb
    constructor
    · intro hge; simp [classify_response, hb, hge]
    · intro hlt; simp [classify_response, hb, Nat.not_le.mpr hlt]

/-- Witness for C2: a JSON `OK` envelope yields its result; a plain-text
success yields the raw body. -/
theorem C2_response_classification_witness :
    classify_response resp_ok = .ok (.json (.str "42"))
    ∧ classify_response resp_text = .ok (.text "committed") := by
  constructor
  · exact ((C2_response_classification resp_ok
      [("status", .str "OK"), ("result", .str "42")]).1 ⟨by decide, rfl⟩).1 (by decide)
  · exact ((C2_response_classification resp_text []).2 (by decide)).2 (by decide)

theorem check_sample_none_iff (idx : Nat) (s : PyVal) :
    check_sample idx s = Option.none ↔ sample_ok s = true := by
  cases s <;> simp [check_sample, sample_ok]
  case dict kvs =>
    by_cases h0 : (pylookup kvs "in").isNone
    · have h0' : is_str (pylookup kvs "in") = false := by
        rw [Option.isNone_iff_eq_none.mp h0]; rfl
      simp [h0, h0']
    · simp only [h0, if_false]
      cases h1 : is_str (pylookup kvs "in") <;> simp
      all_goals (cases h2 : opt_str_ok (pylookup kvs "out") <;> simp)

theorem check_sample_kind (idx : Nat) (s : PyVal) (e : PyErr)
    (h : check_sample idx s = some e) : e.kind = .configError := by
  cases s <;> unfold check_sample at h
  case dict kvs =>
    repeat' split at h
    all_goals (cases h <;> rfl)
  all_goals (cases h; rfl)

theorem check_samples_from_none_iff (l : List PyVal) : ∀ idx,
    check_samples_from idx l = Option.none ↔ ∀ s ∈ l, sample_ok s = true := by
  induction l with
  | nil => intro idx; simp [check_samples_from]
  | cons s t ih =>
    intro idx
    simp only [check_samples_from]
    cases hc : check_sample idx s with
    | some e =>
        simp only [List.mem_cons]
        constructor
        · intro h; exact absurd h (by simp)
        · intro h
          have : sample_ok s = true := h s (Or.inl rfl)
          rw [← check_sample_none_iff idx] at this
          rw [this] at hc
          exact absurd hc (by simp)
    | none =>
        rw [ih (idx + 1)]
        constructor
        · intro h x hx
          rcases List.mem_cons.mp hx with rfl | hx
          · exact (check_sample_none_iff idx x).mp hc
          · exact h x hx
        · intro h x hx
          exact h x (List.mem_cons_of_mem _ hx)

theorem check_samples_from_kind : ∀ (l : List PyVal) (idx : Nat) (e : PyErr),
    check_samples_from idx l = some e → e.kind = .configError := by
  intro l
  induction l with
  | nil => intro idx e h; simp [check_samples_from] at h
  | cons s t ih =>
    intro idx e h
    simp only [check_samples_from] at h
    cases hc : check_sample idx s with
    | some e' => rw [hc] at h; cases h; exact check_sample_kind idx s _ hc
    | none => rw [hc] at h; exact ih (idx + 1) e h

/-- **C10.** `_load_samples` accepts a samples list exactly when every entry
is a mapping whose `in` is a string, whose `out` (when present) is a string,
and whose `example` (when present) is exactly the string `"true"` or
`"false"` — a boolean is rejected; every rejection is a `ConfigError`, and
it aborts the tests stage before any call is issued, so no test is
submitted to the remote service. -/
theorem C10_sample_validation (path : String) (content : PyVal) (api : Api)
    (dry_run : Bool) (pid : PyVal) :
    (∀ xs, content = .list xs →
        (_load_samples path content = .ok xs ↔ ∀ s ∈ xs, sample_ok s = true))
    ∧ (∀ e, _load_samples path content = .error e →
        e.kind = .configError
        ∧ stage7 api dry_run pid path content = Run.fail e) := by
  constructor
  · rintro xs rfl
    simp only [_load_samples, load_tests_file]
    cases hc : check_samples_from 0 xs with
    | none =>
        simp only [hc]
        exact ⟨fun _ => (check_samples_from_none_iff xs 0).mp hc, fun _ => trivial⟩
    | some e =>
        simp only [hc]
        constructor
        · intro h; exact absurd h (by simp)
        · intro h
          have h2 := (check_samples_from_none_iff xs 0).mpr h
          rw [h2] at hc
          exact absurd hc (by simp)
  · intro e h
    refine ⟨?_, by unfold stage7; rw [h]⟩
    cases content <;> simp only [_load_samples, load_tests_file] at h
    case list xs =>
      cases hc : check_samples_from 0 xs with
      | some e' => rw [hc] at h; cases h; exact check_samples_from_kind xs 0 _ hc
      | none => rw [hc] at h; cases h
    all_goals (cases h; rfl)

/-- Witness for C10: an `example` field holding the boolean `true` raises a
`ConfigError` and the tests stage issues no call at all. -/
theorem C10_sample_validation_witness :
    stage7 api_fresh false (.int 7) "samples.yaml" samples_bool_example
      = Run.fail ⟨.configError,
          s!"Expected {qm}true{qm} or {qm}false{qm} for samples[0].example"⟩
    ∧ (stage7 api_fresh false (.int 7) "samples.yaml" samples_bool_example).calls
      = [] := by
  have h := (C10_sample_validation "samples.yaml" samples_bool_example api_fresh
    false (.int 7)).2
    ⟨.configError, s!"Expected {qm}true{qm} or {qm}false{qm} for samples[0].example"⟩
    rfl
  exact ⟨h.2, by rw [h.2]; rfl⟩

theorem sub_string_prepend (u : String) {a t : String} (h : sub_string_of a t) :
    sub_string_of a (u ++ t) := by
  obtain ⟨p, q, hpq⟩ := h
  exact ⟨u.data ++ p, q, by rw [String.data_append, hpq]; simp⟩

theorem sub_string_join_nl {c : String} : ∀ {l : List String}, c ∈ l →
    sub_string_of c (join_nl l) := by
  intro l
  induction l with
  | nil => intro h; cases h
  | cons x t ih =>
    intro h
    cases t with
    | nil =>
      rcases List.mem_singleton.mp h with rfl
      exact ⟨[], [], by simp [join_nl]⟩
    | cons y u =>
      rcases List.mem_cons.mp h with rfl | h
      · refine ⟨[], ("\n" ++ join_nl (y :: u)).data, ?_⟩
        show (c ++ "\n" ++ join_nl (y :: u)).data = _
        simp [String.data_append]
      · exact sub_string_prepend (x ++ "\n") (ih h)

/-- **C8.** Configuration validation collects every complaint across the
whole document and raises one `ConfigError` whose report joins them all —
each collected complaint occurs verbatim in the report — and a document
that fails validation aborts `build` before any network call. -/
theorem C8_config_error_collection (doc : List (String × PyVal)) (dry_run : Bool)
    (api : Api) :
    (config_errors doc ≠ [] →
        load_problem_config doc = .error (join_nl (config_errors doc))
      ∧ (∀ c ∈ config_errors doc, sub_string_of c (join_nl (config_errors doc)))
      ∧ (build doc dry_run api).calls = []
      ∧ (build doc dry_run api).val
          = .error ⟨.configError, join_nl (config_errors doc)⟩)
    ∧ (config_errors doc = [] → load_problem_config doc = .ok doc) := by
  constructor
  · intro hne
    have hload : load_problem_config doc = .error (join_nl (config_errors doc)) := by
      unfold load_problem_config
      cases hce : config_errors doc with
      | nil => exact absurd hce hne
      | cons a t => rfl
    refine ⟨hload, fun c hc => sub_string_join_nl hc, ?_, ?_⟩
    · simp [build, hload, Run.fail]
    · simp [build, hload, Run.fail]
  · intro h
    unfold load_problem_config
    rw [h]

/-- Witness for C8: a document simultaneously missing
`problem.timelimit_ms` and `files.checker` yields a single report holding
both complaints. -/
theorem C8_config_error_collection_witness :
    load_problem_config doc_both = .error (join_nl (config_errors doc_both))
    ∧ sub_string_of s!"Missing {qm}problem.timelimit_ms{qm}"
        (join_nl (config_errors doc_both))
    ∧ sub_string_of s!"Missing {qm}files.checker{qm}"
        (join_nl (config_errors doc_both)) := by
  have h := (C8_config_error_collection doc_both false api_fresh).1 (by decide)
  exact ⟨h.1, h.2.1 _ (by decide), h.2.1 _ (by decide)⟩

theorem slot_blocks_length (rs : List Int) : ∀ c, (slot_blocks c rs).length = rs.length := by
  induction rs with
  | nil => intro c; rfl
  | cons r t ih => intro c; simp [slot_blocks, ih]

theorem slot_blocks_getD (rs : List Int) : ∀ (c : Int) (k : Nat), k < rs.length →
    (slot_blocks c rs).getD k (0, 0)
      = (c + (rs.take k).sum, c + (rs.take (k + 1)).sum - 1) := by
  induction rs with
  | nil => intro c k h; simp at h
  | cons r t ih =>
    intro c k h
    cases k with
    | zero => simp [slot_blocks]
    | succ k =>
      rw [List.length_cons] at h
      have := ih (c + r) k (by omega)
      simp only [slot_blocks, List.getD_cons_succ, this, List.take_succ_cons, List.sum_cons]
      rw [Prod.mk.injEq]
      constructor <;> ring

theorem sum_take_mono (rs : List Int) (h : ∀ r ∈ rs, 0 ≤ r) :
    ∀ a b, a ≤ b → (rs.take a).sum ≤ (rs.take b).sum := by
  induction rs with
  | nil => intro a b _; simp
  | cons r t ih =>
    intro a b hab
    cases a with
    | zero =>
        simp only [List.take_zero, List.sum_nil]
        refine List.sum_nonneg fun x hx => h x (List.take_subset _ _ hx)
    | succ a =>
      cases b with
      | zero => omega
      | succ b =>
        simp only [List.take_succ_cons, List.sum_cons]
        have := ih (fun x hx => h x (List.mem_cons_of_mem _ hx)) a b (by omega)
        omega

theorem ranges_eq_slot_blocks (gens : List (String × Int × PyVal)) : ∀ c,
    (stage8_ranges c gens).map (fun x => (x.2.1, x.2.1 + x.2.2 - 1))
      = slot_blocks c (gen_repeats gens) := by
  induction gens with
  | nil => intro c; rfl
  | cons g t ih =>
    intro c
    cases hc : not_none_or_empty g.2.2 <;>
      simp [stage8_ranges, gen_repeats, List.filter_cons, hc, slot_blocks, ih]

theorem sub_string_head (a t : String) : sub_string_of a (a ++ t) :=
  ⟨[], t.data, by rw [String.data_append]; simp⟩

theorem ranges_fragment_sub (gens : List (String × Int × PyVal)) : ∀ c x,
    x ∈ stage8_ranges c gens →
    sub_string_of (range_fragment x.2.1 x.2.2 x.1) (script_of c gens) := by
  induction gens with
  | nil => intro c x h; cases h
  | cons g t ih =>
    intro c x h
    cases hc : not_none_or_empty g.2.2 <;>
      simp only [stage8_ranges, hc, script_of, if_true, if_false] at h ⊢
    · rcases List.mem_cons.mp h with rfl | h
      · exact sub_string_head _ _
      · exact sub_string_prepend _ (ih _ _ h)
    · exact sub_string_prepend _ (ih _ _ h)

theorem cmd_fragment_sub (gens : List (String × Int × PyVal)) : ∀ c g,
    g ∈ gens → not_none_or_empty g.2.2 = true →
    sub_string_of (py_str_of g.2.2) (script_of c gens) := by
  induction gens with
  | nil => intro c g h; cases h
  | cons g0 t ih =>
    intro c g h hcmd
    rcases List.mem_cons.mp h with rfl | h
    · simp only [script_of, hcmd, if_true]
      refine ⟨"\n".data, (script_of c t).data, ?_⟩
      rw [String.data_append, String.data_append]
    · cases hc : not_none_or_empty g0.2.2
      · simp only [script_of, hc, if_false]
        exact sub_string_prepend _ (ih _ _ h hcmd)
      · simp only [script_of, hc, if_true]
        exact sub_string_prepend _ (ih _ _ h hcmd)

theorem gen_fields_dict (g : String × Int × PyVal) :
    gen_fields (gen_dict g) = .ok (g.1, g.2.1, g.2.2) := rfl

theorem stage8_loop_spec (api : Api) (fs : String → String) (pid : PyVal)
    (hapi : ∀ m p, ∃ v, api m p = Except.ok v) :
    ∀ (gens : List (String × Int × PyVal)) (sc : String) (c : Int),
      stage8_loop api fs false pid sc c (gens.map gen_dict)
        = ⟨.ok (sc ++ script_of c gens),
           gens.map (fun g => save_file_call pid fs g.1), []⟩ := by
  intro gens
  induction gens with
  | nil => intro sc c; simp [stage8_loop, script_of, Run.pure, String.append_empty]
  | cons g t ih =>
    intro sc c
    obtain ⟨v, hv⟩ := hapi "problem.saveFile"
      [("problemId", pid), ("type", .str "source"),
       ("name", .str (path_name g.1)), ("file", .str (fs g.1))]
    cases hc : not_none_or_empty g.2.2 <;>
      simp [stage8_loop, gen_fields_dict, add_file_source, _call, get_method, METHODS,
        hv, Run.bind, ih, script_of, save_file_call, hc, String.append_assoc]

theorem stage8_calls_spec (api : Api) (fs : String → String) (pid : PyVal)
    (hapi : ∀ m p, ∃ v, api m p = Except.ok v)
    (gens : List (String × Int × PyVal)) :
    stage8 api fs false pid [("generators", .list (gens.map gen_dict))]
      = ⟨.ok (), (gens.map fun g => save_file_call pid fs g.1)
           ++ [save_script_call pid (script_of 1 gens)], []⟩ := by
  obtain ⟨v, hv⟩ := hapi "problem.saveScript"
    [("problemId", pid), ("testset", .str "tests"), ("source", .str (script_of 1 gens))]
  have hloop := stage8_loop_spec api fs pid hapi gens "" 1
  simp [stage8, hloop, _call, get_method, METHODS, Run.bind, Run.pure,
    String.empty_append, save_script_call, hv, pylookup]

/-- **C7.** The generated-tests stage assigns each command-less generator,
in list order starting at slot 1, the contiguous block whose bounds are the
running prefix sums of the repeat counts — blocks of size equal to the
repeat count, adjacent and disjoint, covering the slots with no gaps; the
freemarker fragment for each block and every explicit command appear
verbatim in the script, and the saved network trace uploads every generator
source before the single script save. -/
theorem C7_generator_slots (gens : List (String × Int × PyVal)) (api : Api)
    (fs : String → String) (pid : PyVal)
    (hapi : ∀ m p, ∃ v, api m p = Except.ok v)
    (hrep : ∀ r ∈ gen_repeats gens, 1 ≤ r) :
    ((stage8_ranges 1 gens).map (fun x => (x.2.1, x.2.1 + x.2.2 - 1))
        = slot_blocks 1 (gen_repeats gens))
    ∧ (slot_blocks 1 (gen_repeats gens)).length = (gen_repeats gens).length
    ∧ (∀ k, k < (gen_repeats gens).length →
        (slot_blocks 1 (gen_repeats gens)).getD k (0, 0)
          = (1 + ((gen_repeats gens).take k).sum, ((gen_repeats gens).take (k + 1)).sum))
    ∧ (∀ k, ∀ hk : k < (gen_repeats gens).length,
        ((slot_blocks 1 (gen_repeats gens)).getD k (0, 0)).2
            - ((slot_blocks 1 (gen_repeats gens)).getD k (0, 0)).1 + 1
          = (gen_repeats gens).get ⟨k, hk⟩)
    ∧ (∀ i j, i < j → j < (gen_repeats gens).length →
        ((slot_blocks 1 (gen_repeats gens)).getD i (0, 0)).2
          < ((slot_blocks 1 (gen_repeats gens)).getD j (0, 0)).1)
    ∧ (∀ x ∈ stage8_ranges 1 gens,
        sub_string_of (range_fragment x.2.1 x.2.2 x.1) (script_of 1 gens))
    ∧ (∀ g ∈ gens, not_none_or_empty g.2.2 = true →
        sub_string_of (py_str_of g.2.2) (script_of 1 gens))
    ∧ (stage8 api fs false pid [("generators", .list (gens.map gen_dict))]).calls
        = (gens.map fun g => save_file_call pid fs g.1)
          ++ [save_script_call pid (script_of 1 gens)] := by
  have hform : ∀ k, k < (gen_repeats gens).length →
      (slot_blocks 1 (gen_repeats gens)).getD k (0, 0)
        = (1 + ((gen_repeats gens).take k).sum, ((gen_repeats gens).take (k + 1)).sum) := by
    intro k hk
    rw [slot_blocks_getD _ 1 k hk, Prod.mk.injEq]
    constructor <;> ring
  refine ⟨ranges_eq_slot_blocks gens 1, slot_blocks_length _ 1, hform, ?_, ?_,
    fun x hx => ranges_fragment_sub gens 1 x hx,
    fun g hg hcmd => cmd_fragment_sub gens 1 g hg hcmd, ?_⟩
  · intro k hk
    rw [hform k hk]
    have hsucc := List.sum_take_succ (gen_repeats gens) k hk
    rw [List.get_eq_getElem]
    simp only [hsucc]
    ring
  · intro i j hij hj
    rw [hform i (by omega), hform j (by omega)]
    have hmono := sum_take_mono (gen_repeats gens)
      (fun r hr => le_trans Int.one_nonneg (hrep r hr)) (i + 1) j (by omega)
    simp only
    omega
  · rw [stage8_calls_spec api fs pid hapi gens]

/-- Witness for C7: repeat counts `[3, 5]` yield the blocks `[1,3]` and
`[4,8]`, and the trace uploads both generator sources (and the command-only
one) before the single script save. -/
theorem C7_generator_slots_witness :
    (stage8_ranges 1 gens_ex).map (fun x => (x.2.1, x.2.1 + x.2.2 - 1))
        = [(1, 3), (4, 8)]
    ∧ (stage8 api_ok_none fs_const false (.int 7)
          [("generators", .list (gens_ex.map gen_dict))]).calls
        = (gens_ex.map fun g => save_file_call (.int 7) fs_const g.1)
          ++ [save_script_call (.int 7) (script_of 1 gens_ex)] := by
  have h := C7_generator_slots gens_ex api_ok_none fs_const (.int 7)
    (fun m p => ⟨.none, rfl⟩) (by decide)
  exact ⟨h.1.trans (by decide), h.2.2.2.2.2.2.2⟩

theorem pair_le_iff (a b : String × String) :
    pair_le a b = true ↔ (a.1 < b.1 ∨ (a.1 = b.1 ∧ a.2 ≤ b.2)) := by
  simp [pair_le]

theorem pair_le_trans : ∀ a b c : String × String,
    pair_le a b = true → pair_le b c = true → pair_le a c = true := by
  intro a b c hab hbc
  rw [pair_le_iff] at *
  rcases hab with h1 | ⟨h1, h2⟩ <;> rcases hbc with h3 | ⟨h3, h4⟩
  · exact Or.inl (lt_trans h1 h3)
  · exact Or.inl (h3 ▸ h1)
  · exact Or.inl (h1 ▸ h3)
  · exact Or.inr ⟨h1.trans h3, le_trans h2 h4⟩

theorem pair_le_total : ∀ a b : String × String,
    (pair_le a b || pair_le b a) = true := by
  intro a b
  simp only [pair_le, Bool.or_eq_true, decide_eq_true_eq]
  rcases lt_trichotomy a.1 b.1 with h | h | h
  · exact Or.inl (Or.inl h)
  · rcases le_total a.2 b.2 with h2 | h2
    · exact Or.inl (Or.inr ⟨h, h2⟩)
    · exact Or.inr (Or.inr ⟨h.symm, h2⟩)
  · exact Or.inr (Or.inl h)

theorem pair_le_antisymm : ∀ a b : String × String,
    pair_le a b = true → pair_le b a = true → a = b := by
  rintro ⟨a1, a2⟩ ⟨b1, b2⟩ hab hba
  rw [pair_le_iff] at hab hba
  dsimp at hab hba
  rcases hab with h1 | ⟨h1, h2⟩ <;> rcases hba with h3 | ⟨h3, h4⟩
  · exact absurd h3 (lt_asymm h1)
  · exact absurd h1 (h3 ▸ lt_irrefl b1)
  · exact absurd h3 (h1 ▸ lt_irrefl a1)
  · rw [h1, le_antisymm h2 h4]

theorem list_any_perm {α : Type} (f : α → Bool) {l1 l2 : List α} (h : l1.Perm l2) :
    l1.any f = l2.any f := by
  cases ha : l1.any f <;> cases hb : l2.any f <;> try rfl
  · rw [List.any_eq_false] at ha
    rw [List.any_eq_true] at hb
    obtain ⟨x, hx, hfx⟩ := hb
    exact absurd hfx (by simpa using ha x (h.mem_iff.mpr hx))
  · rw [List.any_eq_true] at ha
    rw [List.any_eq_false] at hb
    obtain ⟨x, hx, hfx⟩ := ha
    exact absurd hfx (by simpa using hb x (h.mem_iff.mp hx))

theorem set_item_perm {l1 l2 : List (String × String)} (h : l1.Perm l2)
    (k v : String) : (set_item l1 k v).Perm (set_item l2 k v) := by
  unfold set_item
  rw [list_any_perm _ h]
  cases hc : l2.any (fun kv => kv.1 == k) <;> simp [hc]
  · exact h.append_right _
  · exact h.map _

theorem mergeSort_pair_eq {l1 l2 : List (String × String)} (h : l1.Perm l2) :
    l1.mergeSort pair_le = l2.mergeSort pair_le := by
  exact @List.eq_of_perm_of_sorted _ (fun a b => pair_le a b = true)
    ⟨fun a b => pair_le_antisymm a b⟩ _ _
    ((List.mergeSort_perm l1 _).trans (h.trans (List.mergeSort_perm l2 _).symm))
    (List.sorted_mergeSort pair_le_trans pair_le_total l1)
    (List.sorted_mergeSort pair_le_trans pair_le_total l2)

/-- **C1.** With nonce and timestamp fixed, the signing step is a pure
function of the parameter multiset: the canonical list is the merged pairs
sorted by key then value over raw strings (a permutation of the merged
input, pairwise ordered), the produced `apiSig` is the nonce concatenated
with the lowercase hex SHA-512 digest of the UTF-8 bytes of
`nonce/method?k=v&...#secret` with unescaped values, and permuting the
input parameters changes neither the canonical list nor the signature. -/
theorem C1_signing_determinism (method secret api_key rand time_str : String)
    (params1 params2 : List (String × String)) (hperm : params1.Perm params2) :
    canonical_items params1 api_key time_str = canonical_items params2 api_key time_str
    ∧ polygon_sign method params1 secret api_key rand time_str
        = polygon_sign method params2 secret api_key rand time_str
    ∧ (polygon_sign method params1 secret api_key rand time_str).2
        = rand ++ sha512_hex (utf8_bytes
            (to_sign rand method (canonical_items params1 api_key time_str) secret))
    ∧ (canonical_items params1 api_key time_str).Perm
        (merge_fixed params1 api_key time_str)
    ∧ List.Pairwise (fun a b => pair_le a b = true)
        (canonical_items params1 api_key time_str) := by
  have hm : (merge_fixed params1 api_key time_str).Perm
      (merge_fixed params2 api_key time_str) :=
    set_item_perm (set_item_perm hperm "apiKey" api_key) "time" time_str
  have hc : canonical_items params1 api_key time_str
      = canonical_items params2 api_key time_str := mergeSort_pair_eq hm
  refine ⟨hc, ?_, rfl, List.mergeSort_perm _ _,
    List.sorted_mergeSort pair_le_trans pair_le_total _⟩
  unfold polygon_sign
  rw [hc]

/-- Witness for C1: two orderings of the same two parameters sign
identically. -/
theorem C1_signing_determinism_witness :
    canonical_items [("b", "2"), ("a", "1")] "KEY" "111"
        = canonical_items [("a", "1"), ("b", "2")] "KEY" "111"
    ∧ (polygon_sign "problems.list" [("b", "2"), ("a", "1")] "SECRET" "KEY"
          "123456" "111").2
        = (polygon_sign "problems.list" [("a", "1"), ("b", "2")] "SECRET" "KEY"
          "123456" "111").2 := by
  have h := C1_signing_determinism "problems.list" "SECRET" "KEY" "123456" "111"
    [("b", "2"), ("a", "1")] [("a", "1"), ("b", "2")] (List.Perm.swap _ _ _)
  exact ⟨h.1, congrArg Prod.snd h.2.1⟩
